import Mathlib

/-!
Verification of the tool-calling reasoning loop in `src/Testing/app.py`
(the "deep agent" of the Mcp_Server_Project repository).

The embedding translates the Python source shallowly:

* JSON values (Python dicts/lists produced and consumed by the tools) become
  the inductive `Json`; `json.dumps` becomes `Json.dumps`; Python
  `dict.get(key)` (returning `None` on a missing key) becomes `dictGet`.
* Chat messages become the structure `Message`; a key that may be absent from
  the Python dict (`tool_calls`, `tool_call_id`, a `null` content) is an
  `Option` field, `none` meaning the key is absent.
* The remote completion service (OpenRouter) is the environment: it is a
  parameter `model : Model` mapping the request payload that
  `call_openrouter` sends — the message list and whether the tool schema was
  attached — to an HTTP response (status code, raw body text, and the parsed
  `choices[0].message` used when the status is 200).
* `json.loads` applied to the serialized tool arguments is Python library
  code, not code of this repository; it is the parameter `loads : Loads`,
  failing exactly on strings it cannot decode.
* A raised Python exception becomes `Except.error` carrying an `AgentError`:
  `transport` for `raise Exception(response.text)` in `call_openrouter`,
  `jsonDecode` for a `json.loads` failure, `unknownTool` for the
  `ValueError` raised by `execute_tool`.
* `deep_agent` additionally returns the trace of completion calls it issued:
  the list of (message list, tool schema attached?) payloads, in order.
  This is pure observability; the returned text is unchanged.
-/

namespace App

/-- JSON values, standing for the Python objects handled by the agent. -/
inductive Json where
  | null : Json
  | bool : Bool → Json
  | num : Int → Json
  | str : String → Json
  | arr : List Json → Json
  | obj : List (String × Json) → Json

mutual

/-- `json.dumps` on a `Json` value (string escaping elided: the values the
agent serializes contain no characters needing escapes). -/
def Json.dumps : Json → String
  | Json.null => "null"
  | Json.bool true => "true"
  | Json.bool false => "false"
  | Json.num n => toString n
  | Json.str s => "\"" ++ s ++ "\""
  | Json.arr xs => "[" ++ Json.dumpsArray xs ++ "]"
  | Json.obj fs => "\x7b" ++ Json.dumpsObject fs ++ "\x7d"

/-- Serialize the elements of a JSON array, comma-separated. -/
def Json.dumpsArray : List Json → String
  | [] => ""
  | [x] => Json.dumps x
  | x :: y :: rest => Json.dumps x ++ ", " ++ Json.dumpsArray (y :: rest)

/-- Serialize the fields of a JSON object, comma-separated. -/
def Json.dumpsObject : List (String × Json) → String
  | [] => ""
  | [kv] => "\"" ++ kv.1 ++ "\": " ++ Json.dumps kv.2
  | kv :: kv2 :: rest =>
      "\"" ++ kv.1 ++ "\": " ++ Json.dumps kv.2 ++ ", " ++
      Json.dumpsObject (kv2 :: rest)

end

/-- Python `dict.get(key)`: the value bound to `key` (last binding wins, as in
a Python dict built from a JSON object), or `None` (`Json.null`) if absent. -/
def dictGet (fields : List (String × Json)) (key : String) : Json :=
  (fields.foldl (fun acc kv => if kv.1 = key then some kv.2 else acc) none).getD
    Json.null

/-- Field access on a JSON object (`Json.null` on a missing key or non-object). -/
def Json.getField : Json → String → Json
  | Json.obj fs, k => dictGet fs k
  | _, _ => Json.null

/-- Index access on a JSON array (`Json.null` out of range or non-array). -/
def Json.getIndex : Json → Nat → Json
  | Json.arr xs, i => (xs.get? i).getD Json.null
  | _, _ => Json.null

/-- `get_design_context` from `src/Testing/app.py`: the mocked Figma
structured output, echoing back the `frame_id` it was given. -/
def get_design_context (frame_id : Json) : Json :=
  Json.obj [
    ("frame_id", frame_id),
    ("name", Json.str "Login Screen"),
    ("components", Json.arr [
      Json.obj [("type", Json.str "Text"), ("content", Json.str "Welcome Back")],
      Json.obj [("type", Json.str "Input"), ("placeholder", Json.str "Email")],
      Json.obj [("type", Json.str "Input"), ("placeholder", Json.str "Password")],
      Json.obj [("type", Json.str "Button"), ("label", Json.str "Login")]])]

/-- The exceptions the agent can raise. -/
inductive AgentError where
  /-- `raise Exception(response.text)` in `call_openrouter`: carries the raw
  response body. -/
  | transport : String → AgentError
  /-- `json.JSONDecodeError` escaping from `json.loads` on a tool call's
  serialized arguments: carries the decoder's message. -/
  | jsonDecode : String → AgentError
  /-- `ValueError(f"Unknown tool: \x7btool_name\x7d")` raised by
  `execute_tool`: carries the unregistered tool name. -/
  | unknownTool : String → AgentError
deriving DecidableEq

/-- `execute_tool` from `src/Testing/app.py`: dispatch on the tool name.
`arguments` is the dict decoded from the model's serialized arguments. -/
def execute_tool (tool_name : String) (arguments : List (String × Json)) :
    Except AgentError Json :=
  if tool_name = "get_design_context" then
    Except.ok (get_design_context (dictGet arguments "frame_id"))
  else
    Except.error (AgentError.unknownTool tool_name)

/-- `TOOLS_SCHEMA` from `src/Testing/app.py`, as the JSON value sent to the
model on the first call. -/
def TOOLS_SCHEMA : Json :=
  Json.arr [
    Json.obj [
      ("type", Json.str "function"),
      ("function", Json.obj [
        ("name", Json.str "get_design_context"),
        ("description", Json.str "Extract structured design data from a Figma frame"),
        ("parameters", Json.obj [
          ("type", Json.str "object"),
          ("properties", Json.obj [
            ("frame_id", Json.obj [
              ("type", Json.str "string"),
              ("description", Json.str "ID of the Figma frame")])]),
          ("required", Json.arr [Json.str "frame_id"])])])]]

/-- `tool_call["function"]` in a model response: a name and the serialized
(still undecoded) arguments string. -/
structure ToolCallFunction where
  name : String
  arguments : String
deriving DecidableEq

/-- One entry of a model response's `tool_calls` list. -/
structure ToolCall where
  id : String
  function : ToolCallFunction
deriving DecidableEq

/-- A chat message dict. A field is `none` when the corresponding key is
absent from the dict (so `tool_calls = some []` is a present-but-empty
list, distinct from an absent key). -/
structure Message where
  role : String
  content : Option String
  tool_calls : Option (List ToolCall)
  tool_call_id : Option String
deriving DecidableEq

/-- An HTTP response from the completion service: the status code, the raw
body text, and — for successful responses — the parsed
`choices[0].message`. -/
structure HttpResponse where
  status_code : Nat
  text : String
  message : Message

/-- The remote completion service, as a function of what `call_openrouter`
sends it: the message list and whether `TOOLS_SCHEMA` was attached. -/
def Model : Type := List Message → Bool → HttpResponse

/-- `json.loads` on a serialized-arguments string: the decoded dict, or the
decoder's error message for a string it cannot decode. -/
def Loads : Type := String → Except String (List (String × Json))

/-- `call_openrouter` from `src/Testing/app.py`: posts the messages (plus the
tool schema when `toolsProvided`); a response with status ≠ 200 raises
`Exception(response.text)`; otherwise the parsed message is returned. -/
def call_openrouter (model : Model) (messages : List Message)
    (toolsProvided : Bool) : Except AgentError Message :=
  let response := model messages toolsProvided
  if response.status_code ≠ 200 then
    Except.error (AgentError.transport response.text)
  else
    Except.ok response.message

/-- The tool-result message appended for one tool call (`app.py` lines
146–150): role `tool`, the request's id, and the `json.dumps` of the
tool's result. -/
def toolMessage (tc : ToolCall) (tool_result : Json) : Message :=
  { role := "tool"
    content := some (Json.dumps tool_result)
    tool_calls := none
    tool_call_id := some tc.id }

/-- The fixed system message seeding every conversation. -/
def systemMessage : Message :=
  { role := "system"
    content := some "You are a design documentation AI. Use tools when required and generate clean markdown output."
    tool_calls := none
    tool_call_id := none }

/-- The user message built from the caller's prompt. -/
def userMessage (user_prompt : String) : Message :=
  { role := "user"
    content := some user_prompt
    tool_calls := none
    tool_call_id := none }

/-- The seed conversation of `deep_agent`. -/
def initialMessages (user_prompt : String) : List Message :=
  [systemMessage, userMessage user_prompt]

/-- The `for tool_call in message["tool_calls"]` loop of `deep_agent`: for
each tool call decode its arguments (`json.loads`; a failure raises),
dispatch it (`execute_tool`; an unknown name raises), then append the
requesting message and the tool-result message. Returns the extended
message list, or the first exception raised. -/
def runToolCalls (loads : Loads) (message : Message) :
    List ToolCall → List Message → Except AgentError (List Message)
  | [], messages => Except.ok messages
  | tc :: rest, messages =>
    match loads tc.function.arguments with
    | Except.error e => Except.error (AgentError.jsonDecode e)
    | Except.ok arguments =>
      match execute_tool tc.function.name arguments with
      | Except.error e => Except.error e
      | Except.ok tool_result =>
        runToolCalls loads message rest
          (messages ++ [message, toolMessage tc tool_result])

/-- `deep_agent` from `src/Testing/app.py`. First completion call with the
tool schema; if the response dict has a `tool_calls` key (even an empty
list) run the tool loop and issue a second completion call without tools,
returning its message content; otherwise return the first message's
content. The second component is the trace of completion calls issued. -/
def deep_agent (model : Model) (loads : Loads) (user_prompt : String) :
    Except AgentError (Option String) × List (List Message × Bool) :=
  match call_openrouter model (initialMessages user_prompt) true with
  | Except.error e => (Except.error e, [(initialMessages user_prompt, true)])
  | Except.ok message =>
    match message.tool_calls with
    | some tool_calls =>
      match runToolCalls loads message tool_calls (initialMessages user_prompt) with
      | Except.error e => (Except.error e, [(initialMessages user_prompt, true)])
      | Except.ok messages2 =>
        match call_openrouter model messages2 false with
        | Except.error e =>
          (Except.error e, [(initialMessages user_prompt, true), (messages2, false)])
        | Except.ok finalMessage =>
          (Except.ok finalMessage.content,
           [(initialMessages user_prompt, true), (messages2, false)])
    | none => (Except.ok message.content, [(initialMessages user_prompt, true)])

/-- Decoding-plus-dispatch of one tool call, exactly as one iteration of the
loop performs it. -/
def dispatch (loads : Loads) (tc : ToolCall) : Except AgentError Json :=
  match loads tc.function.arguments with
  | Except.error e => Except.error (AgentError.jsonDecode e)
  | Except.ok arguments => execute_tool tc.function.name arguments

/-- The value of a successful dispatch (`Json.null` for a failed one; only
used under a success hypothesis). -/
def okValue : Except AgentError Json → Json
  | Except.ok v => v
  | Except.error _ => Json.null

/-- The messages the loop appends for a list of tool calls that all dispatch
successfully: for each call, the requesting message again, then its
tool-result message. -/
def appendedMessages (loads : Loads) (message : Message) :
    List ToolCall → List Message
  | [] => []
  | tc :: rest =>
      message :: toolMessage tc (okValue (dispatch loads tc)) ::
        appendedMessages loads message rest

/-- The conversation sent to the second completion call, when the first
response carries `tool_calls = tcs` and they all dispatch successfully. -/
def secondMessages (model : Model) (loads : Loads) (user_prompt : String)
    (tcs : List ToolCall) : List Message :=
  initialMessages user_prompt ++
    appendedMessages loads (model (initialMessages user_prompt) true).message tcs

/-- Occurrence count of a message in a list. -/
def countMsg (a : Message) : List Message → Nat
  | [] => 0
  | b :: rest => (if b = a then 1 else 0) + countMsg a rest

/-- `a` is a prefix of `b`. -/
def prefixOf (a b : List Message) : Prop := ∃ t, a ++ t = b

/-! ### Lemmas about the tool-call loop -/

lemma runToolCalls_all_ok (loads : Loads) (message : Message) :
    ∀ (tcs : List ToolCall),
      (∀ tc ∈ tcs, ∃ v, dispatch loads tc = Except.ok v) →
      ∀ (msgs0 : List Message),
        runToolCalls loads message tcs msgs0 =
          Except.ok (msgs0 ++ appendedMessages loads message tcs) := by
  intro tcs
  induction tcs with
  | nil => intro _ msgs0; simp [runToolCalls, appendedMessages]
  | cons tc rest ih =>
    intro h msgs0
    obtain ⟨v, hv⟩ := h tc (List.mem_cons_self tc rest)
    cases hl : loads tc.function.arguments with
    | error e => simp [dispatch, hl] at hv
    | ok arguments =>
      have he : execute_tool tc.function.name arguments = Except.ok v := by
        simpa [dispatch, hl] using hv
      have hval : okValue (dispatch loads tc) = v := by
        simp [okValue, dispatch, hl, he]
      simp only [runToolCalls, hl, he]
      rw [ih (fun tc' htc' => h tc' (List.mem_cons_of_mem tc htc'))]
      simp [appendedMessages, hval]

lemma runToolCalls_append_of_ok (loads : Loads) (message : Message) :
    ∀ (pre : List ToolCall),
      (∀ tc ∈ pre, ∃ v, dispatch loads tc = Except.ok v) →
      ∀ (rest : List ToolCall) (msgs0 : List Message),
        runToolCalls loads message (pre ++ rest) msgs0 =
          runToolCalls loads message rest
            (msgs0 ++ appendedMessages loads message pre) := by
  intro pre
  induction pre with
  | nil => intro _ rest msgs0; simp [appendedMessages]
  | cons tc pre' ih =>
    intro h rest msgs0
    obtain ⟨v, hv⟩ := h tc (List.mem_cons_self tc pre')
    cases hl : loads tc.function.arguments with
    | error e => simp [dispatch, hl] at hv
    | ok arguments =>
      have he : execute_tool tc.function.name arguments = Except.ok v := by
        simpa [dispatch, hl] using hv
      have hval : okValue (dispatch loads tc) = v := by
        simp [okValue, dispatch, hl, he]
      simp only [List.cons_append, runToolCalls, hl, he, List.append_eq]
      rw [ih (fun tc' htc' => h tc' (List.mem_cons_of_mem tc htc'))]
      simp [appendedMessages, hval]

lemma runToolCalls_ok_prefixOf (loads : Loads) (message : Message) :
    ∀ (tcs : List ToolCall) (msgs0 out : List Message),
      runToolCalls loads message tcs msgs0 = Except.ok out →
      prefixOf msgs0 out := by
  intro tcs
  induction tcs with
  | nil =>
    intro msgs0 out h
    simp [runToolCalls] at h
    exact ⟨[], by simp [h]⟩
  | cons tc rest ih =>
    intro msgs0 out h
    cases hl : loads tc.function.arguments with
    | error e => simp [runToolCalls, hl] at h
    | ok arguments =>
      cases he : execute_tool tc.function.name arguments with
      | error e => simp [runToolCalls, hl, he] at h
      | ok v =>
        simp only [runToolCalls, hl, he] at h
        obtain ⟨tail, htail⟩ := ih _ _ h
        exact ⟨[message, toolMessage tc v] ++ tail, by rw [← htail]; simp⟩

lemma appendedMessages_length (loads : Loads) (message : Message) :
    ∀ tcs : List ToolCall,
      (appendedMessages loads message tcs).length = 2 * tcs.length := by
  intro tcs
  induction tcs with
  | nil => simp [appendedMessages]
  | cons tc rest ih =>
    simp [appendedMessages, ih]
    ring

lemma appendedMessages_filter_tool (loads : Loads) (message : Message)
    (hrole : message.role ≠ "tool") :
    ∀ tcs : List ToolCall,
      (appendedMessages loads message tcs).filter (fun m => m.role == "tool") =
        tcs.map (fun tc => toolMessage tc (okValue (dispatch loads tc))) := by
  intro tcs
  induction tcs with
  | nil => simp [appendedMessages]
  | cons tc rest ih =>
    simp [appendedMessages, List.filter_cons, hrole, toolMessage, ih]

lemma appendedMessages_countMsg (loads : Loads) (message : Message)
    (hrole : message.role ≠ "tool") :
    ∀ tcs : List ToolCall,
      countMsg message (appendedMessages loads message tcs) = tcs.length := by
  intro tcs
  induction tcs with
  | nil => simp [appendedMessages, countMsg]
  | cons tc rest ih =>
    have hne : toolMessage tc (okValue (dispatch loads tc)) ≠ message := by
      intro hEq
      apply hrole
      rw [← hEq]
      rfl
    simp [appendedMessages, countMsg, ih, hne]
    omega

lemma countMsg_append (a : Message) :
    ∀ l1 l2 : List Message,
      countMsg a (l1 ++ l2) = countMsg a l1 + countMsg a l2 := by
  intro l1 l2
  induction l1 with
  | nil => simp [countMsg]
  | cons b rest ih => simp [countMsg, ih]; omega

lemma dictGet_foldl_acc (key : String) :
    ∀ (fields : List (String × Json)) (acc : Option Json),
      (∀ kv ∈ fields, kv.1 ≠ key) →
      fields.foldl (fun acc kv => if kv.1 = key then some kv.2 else acc) acc =
        acc := by
  intro fields
  induction fields with
  | nil => intro acc _; rfl
  | cons kv rest ih =>
    intro acc h
    have hk : kv.1 ≠ key := h kv (List.mem_cons_self kv rest)
    simp only [List.foldl_cons, if_neg hk]
    exact ih acc (fun kv' h' => h kv' (List.mem_cons_of_mem kv h'))

lemma dictGet_eq_null (fields : List (String × Json)) (key : String)
    (h : ∀ kv ∈ fields, kv.1 ≠ key) : dictGet fields key = Json.null := by
  unfold dictGet
  rw [dictGet_foldl_acc key fields none h]
  rfl

lemma deep_agent_trace_of_tool_calls (model : Model) (loads : Loads)
    (p : String) (tcs : List ToolCall)
    (hstatus : (model (initialMessages p) true).status_code = 200)
    (htcs : (model (initialMessages p) true).message.tool_calls = some tcs)
    (hdisp : ∀ tc ∈ tcs, ∃ v, dispatch loads tc = Except.ok v) :
    (deep_agent model loads p).2 =
      [(initialMessages p, true), (secondMessages model loads p tcs, false)] := by
  have hc : call_openrouter model (initialMessages p) true =
      Except.ok (model (initialMessages p) true).message := by
    unfold call_openrouter
    simp [hstatus]
  have hrt : runToolCalls loads (model (initialMessages p) true).message tcs
      (initialMessages p) = Except.ok (secondMessages model loads p tcs) :=
    runToolCalls_all_ok loads _ tcs hdisp (initialMessages p)
  unfold deep_agent
  rw [hc]
  simp only [htcs, hrt]
  split <;> rfl

/-! ### Concrete fixtures used by counterexamples and witnesses -/

/-- A decoder that fails on every arguments string. -/
def noLoads : Loads := fun _ =>
  Except.error "Expecting value: line 1 column 1 (char 0)"

/-- A decoder succeeding exactly on the two serialized-argument payloads the
fixture tool calls carry. -/
def okLoads : Loads := fun s =>
  if s = "\x7b\"frame_id\": \"frame-1\"\x7d" then
    Except.ok [("frame_id", Json.str "frame-1")]
  else if s = "\x7b\"frame_id\": \"frame-2\"\x7d" then
    Except.ok [("frame_id", Json.str "frame-2")]
  else if s = "\x7b\x7d" then
    Except.ok []
  else
    Except.error "Expecting value: line 1 column 1 (char 0)"

/-- A well-formed request for the registered tool. -/
def toolCallA : ToolCall :=
  { id := "call_1",
    function := { name := "get_design_context",
                  arguments := "\x7b\"frame_id\": \"frame-1\"\x7d" } }

/-- A second well-formed request, with a distinct id. -/
def toolCallB : ToolCall :=
  { id := "call_2",
    function := { name := "get_design_context",
                  arguments := "\x7b\"frame_id\": \"frame-2\"\x7d" } }

/-- A request naming an unregistered tool. -/
def frobCall : ToolCall :=
  { id := "call_3",
    function := { name := "frobnicate", arguments := "\x7b\x7d" } }

/-- A request whose serialized arguments cannot be decoded. -/
def badArgsCall : ToolCall :=
  { id := "call_4",
    function := { name := "get_design_context", arguments := "not json" } }

/-- An assistant message requesting the given tool calls. -/
def assistantRequest (tcs : List ToolCall) : Message :=
  { role := "assistant", content := none,
    tool_calls := some tcs, tool_call_id := none }

/-- A model that always answers directly (no `tool_calls` key). -/
def plainModel : Model := fun _ _ =>
  { status_code := 200, text := "",
    message := { role := "assistant", content := some "plain answer",
                 tool_calls := none, tool_call_id := none } }

/-- A model whose first response carries a present-but-empty `tool_calls`
list, and whose second response answers directly. -/
def emptyToolCallsModel : Model := fun _ toolsProvided =>
  if toolsProvided then
    { status_code := 200, text := "",
      message := { role := "assistant", content := some "first answer",
                   tool_calls := some [], tool_call_id := none } }
  else
    { status_code := 200, text := "",
      message := { role := "assistant", content := some "second answer",
                   tool_calls := none, tool_call_id := none } }

/-- A model whose first response requests `toolCallA` and whose second
response answers directly. -/
def oneToolModel : Model := fun _ toolsProvided =>
  if toolsProvided then
    { status_code := 200, text := "", message := assistantRequest [toolCallA] }
  else
    { status_code := 200, text := "",
      message := { role := "assistant", content := some "final markdown",
                   tool_calls := none, tool_call_id := none } }

/-- A model whose first response requests a tool call with undecodable
arguments. -/
def badArgsModel : Model := fun _ toolsProvided =>
  if toolsProvided then
    { status_code := 200, text := "", message := assistantRequest [badArgsCall] }
  else
    { status_code := 200, text := "",
      message := { role := "assistant", content := some "never reached",
                   tool_calls := none, tool_call_id := none } }

/-- A model whose second response still requests tool calls (a protocol
violation per the spec) while also carrying text. -/
def protocolViolatingModel : Model := fun _ toolsProvided =>
  if toolsProvided then
    { status_code := 200, text := "", message := assistantRequest [toolCallA] }
  else
    { status_code := 200, text := "",
      message := { role := "assistant", content := some "second round text",
                   tool_calls := some [toolCallB], tool_call_id := none } }

/-- A model whose first response requests two tool calls. -/
def twoToolModel : Model := fun _ toolsProvided =>
  if toolsProvided then
    { status_code := 200, text := "",
      message := assistantRequest [toolCallA, toolCallB] }
  else
    { status_code := 200, text := "",
      message := { role := "assistant", content := some "combined answer",
                   tool_calls := none, tool_call_id := none } }

/-- A model whose first response requests an unregistered tool. -/
def frobModel : Model := fun _ toolsProvided =>
  if toolsProvided then
    { status_code := 200, text := "", message := assistantRequest [frobCall] }
  else
    { status_code := 200, text := "",
      message := { role := "assistant", content := some "never reached",
                   tool_calls := none, tool_call_id := none } }

/-- A completion service answering every call with the given non-200 status
and a fixed body. -/
def failModel (code : Nat) : Model := fun _ _ =>
  { status_code := code, text := "Unauthorized",
    message := { role := "assistant", content := none,
                 tool_calls := none, tool_call_id := none } }

/-- A model whose first call succeeds with one tool request and whose second
call fails at the transport level. -/
def secondFailModel : Model := fun _ toolsProvided =>
  if toolsProvided then
    { status_code := 200, text := "", message := assistantRequest [toolCallA] }
  else
    { status_code := 503, text := "Service Unavailable",
      message := { role := "assistant", content := none,
                   tool_calls := none, tool_call_id := none } }

/-! ### Claims -/

/-- C1 counterexample: a first response whose `tool_calls` key is present but
holds the empty list. The claim says the loop then performs exactly one
completion call and returns that response's text; in fact `deep_agent`
tests key presence (`"tool_calls" in message`), enters the tool branch,
issues a second completion call, and returns the second response's text. -/
theorem c1_counterexample :
    (deep_agent emptyToolCallsModel noLoads "hi").1 =
      Except.ok (some "second answer") ∧
    (deep_agent emptyToolCallsModel noLoads "hi").2.length = 2 := by
  exact ⟨rfl, rfl⟩

/-- C1 (amended): when the first response's `tool_calls` key is absent,
`deep_agent` performs exactly one completion call and returns that
response's content unchanged; a present-but-empty list instead triggers a
second completion call. -/
theorem c1_corrected (model : Model) (loads : Loads) (p : String)
    (hstatus : (model (initialMessages p) true).status_code = 200)
    (hnone : (model (initialMessages p) true).message.tool_calls = none) :
    deep_agent model loads p =
      (Except.ok (model (initialMessages p) true).message.content,
       [(initialMessages p, true)]) := by
  unfold deep_agent call_openrouter
  simp [hstatus, hnone]

/-- C1 witness: `c1_corrected` evaluated on a concrete tool-free model. -/
theorem c1_corrected_witness :
    deep_agent plainModel noLoads "hello" =
      (Except.ok (some "plain answer"), [(initialMessages "hello", true)]) :=
  c1_corrected plainModel noLoads "hello" rfl rfl

/-- C2: when the first response (an assistant message) requests the tool
calls `tcs` and every one of them dispatches successfully, the
conversation sent to the second completion call contains exactly
`tcs.length` tool-role messages, the k-th carrying `tool_call_id` equal to
the id of the k-th request together with that tool's serialized result, in
the order the model produced the requests. -/
theorem c2_tool_result_messages (model : Model) (loads : Loads) (p : String)
    (tcs : List ToolCall)
    (hstatus : (model (initialMessages p) true).status_code = 200)
    (htcs : (model (initialMessages p) true).message.tool_calls = some tcs)
    (hrole : (model (initialMessages p) true).message.role = "assistant")
    (hdisp : ∀ tc ∈ tcs, ∃ v, dispatch loads tc = Except.ok v) :
    ((deep_agent model loads p).2.map Prod.fst).getLast? =
      some (secondMessages model loads p tcs) ∧
    (secondMessages model loads p tcs).filter (fun m => m.role == "tool") =
      tcs.map (fun tc => toolMessage tc (okValue (dispatch loads tc))) ∧
    ((secondMessages model loads p tcs).filter
        (fun m => m.role == "tool")).map (fun m => m.tool_call_id) =
      tcs.map (fun tc => some tc.id) := by
  have hc : call_openrouter model (initialMessages p) true =
      Except.ok (model (initialMessages p) true).message := by
    unfold call_openrouter
    simp [hstatus]
  have hrt := runToolCalls_all_ok loads (model (initialMessages p) true).message
      tcs hdisp (initialMessages p)
  have hrole' : (model (initialMessages p) true).message.role ≠ "tool" := by
    rw [hrole]
    decide
  have hfilter : (secondMessages model loads p tcs).filter
      (fun m => m.role == "tool") =
      tcs.map (fun tc => toolMessage tc (okValue (dispatch loads tc))) := by
    unfold secondMessages
    rw [List.filter_append, appendedMessages_filter_tool loads _ hrole']
    simp [initialMessages, systemMessage, userMessage]
  refine ⟨?_, hfilter, ?_⟩
  · unfold deep_agent
    rw [hc]
    simp only [htcs, hrt, secondMessages]
    cases call_openrouter model
        (initialMessages p ++
          appendedMessages loads (model (initialMessages p) true).message tcs)
        false with
    | error e => simp
    | ok finalMessage => simp
  · rw [hfilter]
    simp [toolMessage]

/-- C2 witness: `c2_tool_result_messages` evaluated on a concrete model
requesting one `get_design_context` call. -/
theorem c2_witness :
    ((deep_agent oneToolModel okLoads "hi").2.map Prod.fst).getLast? =
      some (secondMessages oneToolModel okLoads "hi" [toolCallA]) ∧
    (secondMessages oneToolModel okLoads "hi" [toolCallA]).filter
        (fun m => m.role == "tool") =
      [toolCallA].map
        (fun tc => toolMessage tc (okValue (dispatch okLoads tc))) ∧
    ((secondMessages oneToolModel okLoads "hi" [toolCallA]).filter
        (fun m => m.role == "tool")).map (fun m => m.tool_call_id) =
      [toolCallA].map (fun tc => some tc.id) := by
  apply c2_tool_result_messages oneToolModel okLoads "hi" [toolCallA] rfl rfl rfl
  intro tc htc
  rw [List.mem_singleton] at htc
  subst htc
  exact ⟨_, rfl⟩

/-- C3 counterexample: a first response requesting one tool call whose
serialized arguments cannot be decoded. The claim says the parse failure
is recorded as a tool-result message and the loop continues to the second
completion call; in fact the `json.loads` exception aborts the whole loop
— the error is returned to the caller and only one completion call was
ever issued, so no tool-result message and no second call exist. -/
theorem c3_counterexample :
    (deep_agent badArgsModel noLoads "hi").1 =
      Except.error
        (AgentError.jsonDecode "Expecting value: line 1 column 1 (char 0)") ∧
    (deep_agent badArgsModel noLoads "hi").2 =
      [(initialMessages "hi", true)] :=
  ⟨rfl, rfl⟩

/-- C3 (amended): when the serialized arguments of a requested tool call
cannot be decoded (every call before it dispatching successfully), the
`json.loads` failure is fatal to the whole loop: `deep_agent` propagates
the decode error to its caller, records no tool-result message, and never
issues the second completion call. -/
theorem c3_corrected (model : Model) (loads : Loads) (p : String)
    (pre post : List ToolCall) (tc : ToolCall) (e : String)
    (hstatus : (model (initialMessages p) true).status_code = 200)
    (htcs : (model (initialMessages p) true).message.tool_calls =
      some (pre ++ tc :: post))
    (hpre : ∀ tc' ∈ pre, ∃ v, dispatch loads tc' = Except.ok v)
    (herr : loads tc.function.arguments = Except.error e) :
    deep_agent model loads p =
      (Except.error (AgentError.jsonDecode e), [(initialMessages p, true)]) := by
  have hc : call_openrouter model (initialMessages p) true =
      Except.ok (model (initialMessages p) true).message := by
    unfold call_openrouter
    simp [hstatus]
  have hrun : runToolCalls loads (model (initialMessages p) true).message
      (pre ++ tc :: post) (initialMessages p) =
      Except.error (AgentError.jsonDecode e) := by
    rw [runToolCalls_append_of_ok loads _ pre hpre]
    simp [runToolCalls, herr]
  unfold deep_agent
  rw [hc]
  simp only [htcs, hrun]

/-- C3 witness: `c3_corrected` evaluated on the concrete bad-arguments
model. -/
theorem c3_corrected_witness :
    deep_agent badArgsModel noLoads "greet" =
      (Except.error
        (AgentError.jsonDecode "Expecting value: line 1 column 1 (char 0)"),
       [(initialMessages "greet", true)]) := by
  apply c3_corrected badArgsModel noLoads "greet" [] [] badArgsCall _ rfl rfl
  · intro tc' htc'
    cases htc'
  · rfl

/-- C4 counterexample: a model whose second response still requests tool
calls. The claim says `deep_agent` rejects it with a
`ProtocolViolationError`; in fact no such check exists — the second
response's text is returned as a successful result. -/
theorem c4_counterexample :
    (protocolViolatingModel
        (secondMessages protocolViolatingModel okLoads "hi" [toolCallA])
        false).message.tool_calls = some [toolCallB] ∧
    (deep_agent protocolViolatingModel okLoads "hi").1 =
      Except.ok (some "second round text") :=
  ⟨rfl, rfl⟩

/-- C4 (amended): the second completion response's content is returned
unconditionally — `deep_agent` never inspects the second response's
`tool_calls` and raises no protocol-violation error. -/
theorem c4_corrected (model : Model) (loads : Loads) (p : String)
    (tcs : List ToolCall)
    (hstatus : (model (initialMessages p) true).status_code = 200)
    (htcs : (model (initialMessages p) true).message.tool_calls = some tcs)
    (hdisp : ∀ tc ∈ tcs, ∃ v, dispatch loads tc = Except.ok v)
    (hstatus2 :
      (model (secondMessages model loads p tcs) false).status_code = 200) :
    deep_agent model loads p =
      (Except.ok (model (secondMessages model loads p tcs) false).message.content,
       [(initialMessages p, true), (secondMessages model loads p tcs, false)]) := by
  have hc : call_openrouter model (initialMessages p) true =
      Except.ok (model (initialMessages p) true).message := by
    unfold call_openrouter
    simp [hstatus]
  have hrt : runToolCalls loads (model (initialMessages p) true).message tcs
      (initialMessages p) = Except.ok (secondMessages model loads p tcs) :=
    runToolCalls_all_ok loads _ tcs hdisp (initialMessages p)
  have hc2 : call_openrouter model (secondMessages model loads p tcs) false =
      Except.ok (model (secondMessages model loads p tcs) false).message := by
    unfold call_openrouter
    simp [hstatus2]
  unfold deep_agent
  rw [hc]
  simp only [htcs, hrt, hc2]

/-- C4 witness: `c4_corrected` evaluated on the protocol-violating model —
its second response requests `toolCallB` yet its text is returned. -/
theorem c4_corrected_witness :
    deep_agent protocolViolatingModel okLoads "hi" =
      (Except.ok (some "second round text"),
       [(initialMessages "hi", true),
        (secondMessages protocolViolatingModel okLoads "hi" [toolCallA],
         false)]) := by
  apply c4_corrected protocolViolatingModel okLoads "hi" [toolCallA] rfl rfl
  · intro tc htc
    rw [List.mem_singleton] at htc
    subst htc
    exact ⟨_, rfl⟩
  · rfl

/-- C7: every invocation of `deep_agent` terminates after at most two
completion calls, whatever the model does — the trace of issued calls never
has length greater than two. -/
theorem c7_at_most_two_model_calls (model : Model) (loads : Loads)
    (p : String) : (deep_agent model loads p).2.length ≤ 2 := by
  unfold deep_agent
  repeat' split
  all_goals simp

/-- C5 counterexample: a first response requesting two tool calls. The claim
says the requesting assistant message is materialized once; in fact
`messages.append(message)` sits inside the per-call loop, so the
conversation sent to the second completion call contains two copies of the
requesting message (the 2×N length tally is met only because of this
duplication). -/
theorem c5_counterexample :
    (deep_agent twoToolModel okLoads "hi").2 =
      [(initialMessages "hi", true),
       (secondMessages twoToolModel okLoads "hi" [toolCallA, toolCallB],
        false)] ∧
    countMsg (assistantRequest [toolCallA, toolCallB])
        (secondMessages twoToolModel okLoads "hi" [toolCallA, toolCallB]) =
      2 :=
  ⟨rfl, rfl⟩

/-- C5 (amended): after a first response requesting `N` tool calls that all
dispatch successfully, the second completion call removes or reorders no
prior message (the seed conversation is a prefix of what is sent), and the
conversation sent to round 2 has length `(length after round 1) + 2×N` —
but the requesting assistant message is appended once per tool call (`N`
copies), not materialized once. -/
theorem c5_corrected (model : Model) (loads : Loads) (p : String)
    (tcs : List ToolCall)
    (hstatus : (model (initialMessages p) true).status_code = 200)
    (htcs : (model (initialMessages p) true).message.tool_calls = some tcs)
    (hrole : (model (initialMessages p) true).message.role = "assistant")
    (hdisp : ∀ tc ∈ tcs, ∃ v, dispatch loads tc = Except.ok v) :
    (deep_agent model loads p).2 =
      [(initialMessages p, true), (secondMessages model loads p tcs, false)] ∧
    prefixOf (initialMessages p) (secondMessages model loads p tcs) ∧
    (secondMessages model loads p tcs).length =
      (initialMessages p).length + 2 * tcs.length ∧
    countMsg (model (initialMessages p) true).message
        (secondMessages model loads p tcs) = tcs.length := by
  have hrole' : (model (initialMessages p) true).message.role ≠ "tool" := by
    rw [hrole]
    decide
  refine ⟨deep_agent_trace_of_tool_calls model loads p tcs hstatus htcs hdisp,
    ⟨appendedMessages loads (model (initialMessages p) true).message tcs, rfl⟩,
    ?_, ?_⟩
  · unfold secondMessages
    simp [appendedMessages_length]
  · unfold secondMessages
    rw [countMsg_append, appendedMessages_countMsg loads _ hrole']
    have hsys : systemMessage ≠ (model (initialMessages p) true).message := by
      intro hEq
      have h2 := hrole
      rw [← hEq] at h2
      simp [systemMessage] at h2
    have husr : userMessage p ≠ (model (initialMessages p) true).message := by
      intro hEq
      have h2 := hrole
      rw [← hEq] at h2
      simp [userMessage] at h2
    have hinit : countMsg (model (initialMessages p) true).message
        (initialMessages p) = 0 := by
      show (if systemMessage = (model (initialMessages p) true).message
          then 1 else 0) +
        ((if userMessage p = (model (initialMessages p) true).message
          then 1 else 0) + 0) = 0
      rw [if_neg hsys, if_neg husr]
    rw [hinit]
    simp

/-- C5 witness: `c5_corrected` evaluated on the two-tool model (`N = 2`). -/
theorem c5_corrected_witness :
    (deep_agent twoToolModel okLoads "go").2 =
      [(initialMessages "go", true),
       (secondMessages twoToolModel okLoads "go" [toolCallA, toolCallB],
        false)] ∧
    prefixOf (initialMessages "go")
      (secondMessages twoToolModel okLoads "go" [toolCallA, toolCallB]) ∧
    (secondMessages twoToolModel okLoads "go" [toolCallA, toolCallB]).length =
      (initialMessages "go").length + 2 * [toolCallA, toolCallB].length ∧
    countMsg (twoToolModel (initialMessages "go") true).message
        (secondMessages twoToolModel okLoads "go" [toolCallA, toolCallB]) =
      [toolCallA, toolCallB].length := by
  apply c5_corrected twoToolModel okLoads "go" [toolCallA, toolCallB] rfl rfl rfl
  intro tc htc
  simp only [List.mem_cons, List.not_mem_nil, or_false] at htc
  rcases htc with rfl | rfl
  · exact ⟨_, rfl⟩
  · exact ⟨_, rfl⟩

/-- C6: a first response requesting an unregistered tool name (arguments
decoding fine, every call before it dispatching successfully) makes
`deep_agent` fail with the unknown-tool error surfaced to its caller — it
never returns a silent answer and never swallows the request. -/
theorem c6_unknown_tool (model : Model) (loads : Loads) (p : String)
    (pre post : List ToolCall) (tc : ToolCall)
    (arguments : List (String × Json))
    (hstatus : (model (initialMessages p) true).status_code = 200)
    (htcs : (model (initialMessages p) true).message.tool_calls =
      some (pre ++ tc :: post))
    (hpre : ∀ tc' ∈ pre, ∃ v, dispatch loads tc' = Except.ok v)
    (hargs : loads tc.function.arguments = Except.ok arguments)
    (hname : tc.function.name ≠ "get_design_context") :
    deep_agent model loads p =
      (Except.error (AgentError.unknownTool tc.function.name),
       [(initialMessages p, true)]) := by
  have hc : call_openrouter model (initialMessages p) true =
      Except.ok (model (initialMessages p) true).message := by
    unfold call_openrouter
    simp [hstatus]
  have hrun : runToolCalls loads (model (initialMessages p) true).message
      (pre ++ tc :: post) (initialMessages p) =
      Except.error (AgentError.unknownTool tc.function.name) := by
    rw [runToolCalls_append_of_ok loads _ pre hpre]
    simp [runToolCalls, hargs, execute_tool, hname]
  unfold deep_agent
  rw [hc]
  simp only [htcs, hrun]

/-- C6 witness: `c6_unknown_tool` evaluated on a model requesting the
unregistered tool `frobnicate`. -/
theorem c6_unknown_tool_witness :
    deep_agent frobModel okLoads "hi" =
      (Except.error (AgentError.unknownTool "frobnicate"),
       [(initialMessages "hi", true)]) := by
  apply c6_unknown_tool frobModel okLoads "hi" [] [] frobCall [] rfl rfl
  · intro tc' htc'
    cases htc'
  · rfl
  · decide

/-- C8 counterexample: two completion services that fail with the same body
but different status codes (401 and 500) produce identical `deep_agent`
outcomes, so the propagated error cannot carry the status — only the
response body is attached (`raise Exception(response.text)`); the status
is printed, not propagated. -/
theorem c8_counterexample :
    deep_agent (failModel 401) noLoads "hi" =
      deep_agent (failModel 500) noLoads "hi" ∧
    (deep_agent (failModel 401) noLoads "hi").1 =
      Except.error (AgentError.transport "Unauthorized") :=
  ⟨rfl, rfl⟩

/-- C8 (amended): a response with status ≠ 200 at either call site makes
`deep_agent` fail immediately with no further completion call (no retry),
and the propagated error carries the raw response body — the status code
is not attached to the error. -/
theorem c8_corrected (model : Model) (loads : Loads) (p : String) :
    ((model (initialMessages p) true).status_code ≠ 200 →
      deep_agent model loads p =
        (Except.error
          (AgentError.transport (model (initialMessages p) true).text),
         [(initialMessages p, true)])) ∧
    (∀ tcs : List ToolCall,
      (model (initialMessages p) true).status_code = 200 →
      (model (initialMessages p) true).message.tool_calls = some tcs →
      (∀ tc ∈ tcs, ∃ v, dispatch loads tc = Except.ok v) →
      (model (secondMessages model loads p tcs) false).status_code ≠ 200 →
      deep_agent model loads p =
        (Except.error (AgentError.transport
            (model (secondMessages model loads p tcs) false).text),
         [(initialMessages p, true),
          (secondMessages model loads p tcs, false)])) := by
  constructor
  · intro hfail
    unfold deep_agent call_openrouter
    simp [hfail]
  · intro tcs hstatus htcs hdisp hfail
    have hc : call_openrouter model (initialMessages p) true =
        Except.ok (model (initialMessages p) true).message := by
      unfold call_openrouter
      simp [hstatus]
    have hrt : runToolCalls loads (model (initialMessages p) true).message tcs
        (initialMessages p) = Except.ok (secondMessages model loads p tcs) :=
      runToolCalls_all_ok loads _ tcs hdisp (initialMessages p)
    have hc2 : call_openrouter model (secondMessages model loads p tcs) false =
        Except.error (AgentError.transport
          (model (secondMessages model loads p tcs) false).text) := by
      unfold call_openrouter
      simp [hfail]
    unfold deep_agent
    rw [hc]
    simp only [htcs, hrt, hc2]

/-- C8 witness: `c8_corrected` evaluated at both call sites — a 401 on the
first call and a 503 on the second call. -/
theorem c8_corrected_witness :
    deep_agent (failModel 401) noLoads "hi" =
      (Except.error (AgentError.transport "Unauthorized"),
       [(initialMessages "hi", true)]) ∧
    deep_agent secondFailModel okLoads "hi" =
      (Except.error (AgentError.transport "Service Unavailable"),
       [(initialMessages "hi", true),
        (secondMessages secondFailModel okLoads "hi" [toolCallA], false)]) := by
  constructor
  · exact (c8_corrected (failModel 401) noLoads "hi").1 (by decide)
  · apply (c8_corrected secondFailModel okLoads "hi").2 [toolCallA] rfl rfl
    · intro tc htc
      rw [List.mem_singleton] at htc
      subst htc
      exact ⟨_, rfl⟩
    · decide

/-- C10: dispatching `get_design_context` with an arguments record that
lacks the `frame_id` key does not raise — `dict.get` yields `None`, the
tool returns a record whose `frame_id` field is `None` — even though
`TOOLS_SCHEMA` declares `frame_id` required: arguments are never checked
against the schema before dispatch. -/
theorem c10_missing_frame_id (arguments : List (String × Json))
    (h : ∀ kv ∈ arguments, kv.1 ≠ "frame_id") :
    execute_tool "get_design_context" arguments =
      Except.ok (get_design_context Json.null) ∧
    (get_design_context Json.null).getField "frame_id" = Json.null ∧
    (((TOOLS_SCHEMA.getIndex 0).getField "function").getField
        "parameters").getField "required" = Json.arr [Json.str "frame_id"] := by
  refine ⟨?_, rfl, rfl⟩
  unfold execute_tool
  rw [if_pos rfl, dictGet_eq_null arguments "frame_id" h]

/-- C10 witness: `c10_missing_frame_id` evaluated on a concrete arguments
record without a `frame_id` key. -/
theorem c10_missing_frame_id_witness :
    execute_tool "get_design_context" [("other", Json.str "x")] =
      Except.ok (get_design_context Json.null) ∧
    (get_design_context Json.null).getField "frame_id" = Json.null ∧
    (((TOOLS_SCHEMA.getIndex 0).getField "function").getField
        "parameters").getField "required" = Json.arr [Json.str "frame_id"] := by
  apply c10_missing_frame_id [("other", Json.str "x")]
  intro kv hkv
  rw [List.mem_singleton] at hkv
  subst hkv
  decide

/-- C9: the transcript is append-only — along the trace of conversations sent
to the model, each conversation is a prefix of the next (no message is
removed, reordered, or replaced), and the first one is the seed
conversation. -/
theorem c9_append_only (model : Model) (loads : Loads) (p : String) :
    ((deep_agent model loads p).2.map Prod.fst).Chain' prefixOf ∧
    ((deep_agent model loads p).2.map Prod.fst).head? =
      some (initialMessages p) := by
  unfold deep_agent
  cases hc : call_openrouter model (initialMessages p) true with
  | error e => simp
  | ok message =>
    cases htc : message.tool_calls with
    | none => simp [htc]
    | some tcs =>
      cases hr : runToolCalls loads message tcs (initialMessages p) with
      | error e => simp [htc, hr]
      | ok messages2 =>
        have hpre : prefixOf (initialMessages p) messages2 :=
          runToolCalls_ok_prefixOf loads message tcs _ _ hr
        cases hf : call_openrouter model messages2 false with
        | error e => simp [htc, hr, hf, hpre]
        | ok finalMessage => simp [htc, hr, hf, hpre]

end App
